import Mathlib

/-!
Verification of the esp-web-flash-server image-assembly core.

The repository is a single binary crate (`src/main.rs`) that prepares a
flashable image set (bootloader, partition table, application firmware) and
serves it over HTTP.  The HTTP handlers, the hard-coded manifest document,
the `PartsData` snapshot and the control flow of `prepare`/`main` are embedded
here directly from the source.  The image-processing primitives the source
calls (`PartitionTable::try_from_bytes`, `FirmwareImageBuilder`,
`Chip::get_flash_image` from the espflash crate) are not part of the
repository's sources; they are modelled from the specification, each such
definition carrying a doc comment starting with "Modelled from the spec:".
File I/O is abstracted away: functions take the file contents (byte lists)
that `std::fs::read` would have produced.
-/

namespace EspWebFlash

/-- The closed set of chip families accepted by the CLI (`espflash::Chip`,
matched exhaustively in `prepare`). -/
inductive Chip
  | esp32
  | esp32c3
  | esp32s2
  | esp32s3
  | esp8266
deriving DecidableEq, Repr

/-- The human-readable chip label, from the `match chip` in `prepare`
(src/main.rs lines 195-201). -/
def chipName : Chip → String
  | .esp32 => "ESP32"
  | .esp32c3 => "ESP32-C3"
  | .esp32s2 => "ESP32-S2"
  | .esp32s3 => "ESP32-S3"
  | .esp8266 => "ESP8266"

/-- One `{path, offset}` entry of the manifest document. -/
structure ManifestPart where
  path : String
  offset : Nat
deriving DecidableEq, Repr

/-- One per-chip-family build descriptor of the manifest document. -/
structure ManifestBuild where
  chipFamily : String
  parts : List ManifestPart
deriving DecidableEq, Repr

/-- The manifest document served at `/manifest.json`. -/
structure Manifest where
  name : String
  newInstallPromptErase : Bool
  builds : List ManifestBuild
deriving DecidableEq, Repr

/-- The `builds` array of the hard-coded JSON literal returned by the
`manifest` handler (src/main.rs lines 84-164), transcribed structurally. -/
def manifestBuilds : List ManifestBuild :=
  [ { chipFamily := "ESP32",
      parts := [ { path := "bootloader.bin", offset := 4096 },
                 { path := "partitions.bin", offset := 32768 },
                 { path := "firmware.bin", offset := 65536 } ] },
    { chipFamily := "ESP32-C3",
      parts := [ { path := "bootloader.bin", offset := 0 },
                 { path := "partitions.bin", offset := 32768 },
                 { path := "firmware.bin", offset := 65536 } ] },
    { chipFamily := "ESP32-S2",
      parts := [ { path := "bootloader.bin", offset := 4096 },
                 { path := "partitions.bin", offset := 32768 },
                 { path := "firmware.bin", offset := 65536 } ] },
    { chipFamily := "ESP32-S3",
      parts := [ { path := "bootloader.bin", offset := 0 },
                 { path := "partitions.bin", offset := 32768 },
                 { path := "firmware.bin", offset := 65536 } ] } ]

/-- The whole manifest document (the fixed JSON literal of the `manifest`
handler, structurally). -/
def manifestDoc : Manifest :=
  { name := "ESP Application"
    newInstallPromptErase := true
    builds := manifestBuilds }

/-- The process-wide snapshot held by the server (src/main.rs lines 166-171).
Byte buffers are lists of byte values. -/
structure PartsData where
  chip : String
  bootloader : List Nat
  partitions : List Nat
  firmware : List Nat
deriving DecidableEq, Repr

/-- The `/bootloader.bin` handler (src/main.rs lines 30-33): returns
`data.bootloader.clone()`. -/
def bootloader (data : PartsData) : List Nat :=
  data.bootloader

/-- The `/partitions.bin` handler (src/main.rs lines 35-38): returns
`data.partitions.clone()`. -/
def partitions (data : PartsData) : List Nat :=
  data.partitions

/-- The `/firmware.bin` handler (src/main.rs lines 40-43): returns
`data.firmware.clone()`. -/
def firmware (data : PartsData) : List Nat :=
  data.firmware

/-- The static HTML landing page returned by the `index` handler
(src/main.rs lines 45-82). -/
def indexPage : String :=
  "
        <html>
        <body>
            <center>
                <h1>ESP Web Flasher</h1>

                <div id=\"main\" style=\"display: none;\">

                    <br>
                    <script type=\"module\" src=\"https://unpkg.com/esp-web-tools@8.0.2/dist/web/install-button.js?module\">
                    </script>
                    <esp-web-install-button id=\"installButton\" manifest=\"manifest.json\"></esp-web-install-button>
                    <br>
                    <span><i>NOTE: Make sure to close anything using your devices com port (e.g. Serial monitor)</i></span>
                </div>
                <div id=\"notSupported\" style=\"display: none;\">
                    Your browser does not support the Web Serial API. Try Chrome
                </div>
            </center>

            <script>
                if (navigator.serial) \x7b
                    document.getElementById(\"notSupported\").style.display = \x27none\x27;
                    document.getElementById(\"main\").style.display = \x27block\x27;
                \x7d else \x7b
                    document.getElementById(\"notSupported\").style.display = \x27block\x27;
                    document.getElementById(\"main\").style.display = \x27none\x27;
                \x7d
            </script>

        </body>
        </html>
        "

/-- The five mounted routes (src/main.rs line 229). -/
inductive Route
  | indexRoute
  | manifestRoute
  | bootloaderRoute
  | partitionsRoute
  | firmwareRoute
deriving DecidableEq, Repr

/-- A response body: HTML page, JSON document, or raw bytes. -/
inductive Response
  | html (body : String)
  | json (doc : Manifest)
  | bytes (body : List Nat)
deriving DecidableEq, Repr

/-- Dispatch of the five mounted routes.  The `index` and `manifest` handlers
take no state argument in the source; the three binary handlers read the
managed `PartsData`. -/
def respond (data : PartsData) : Route → Response
  | .indexRoute => .html indexPage
  | .manifestRoute => .json manifestDoc
  | .bootloaderRoute => .bytes (bootloader data)
  | .partitionsRoute => .bytes (partitions data)
  | .firmwareRoute => .bytes (firmware data)

/-- The error taxonomy of the assembly chain (spec section 7); generic I/O
failures are folded into `ioFailure`. -/
inductive EspError
  | malformedPartitionTable
  | invalidExecutable
  | missingBootloader
  | segmentOverlap
  | ioFailure
deriving DecidableEq, Repr

/-- The espflash `FlashSize` variants relevant here; `prepare` fixes the
choice to `Flash4Mb` (src/main.rs line 191). -/
inductive FlashSize
  | flash1Mb
  | flash2Mb
  | flash4Mb
  | flash8Mb
  | flash16Mb
deriving DecidableEq, Repr

/-- Capacity in bytes of each flash-size variant. -/
def flashSizeBytes : FlashSize → Nat
  | .flash1Mb => 0x100000
  | .flash2Mb => 0x200000
  | .flash4Mb => 0x400000
  | .flash8Mb => 0x800000
  | .flash16Mb => 0x1000000

/-- Header code of each flash-size variant, written into the image header's
flash-size field. -/
def flashSizeCode : FlashSize → Nat
  | .flash1Mb => 0
  | .flash2Mb => 1
  | .flash4Mb => 2
  | .flash8Mb => 3
  | .flash16Mb => 4

/-- A loadable section of the input executable: virtual load address plus raw
bytes (spec section 3, ExecutableImage).  The ELF container parsing performed
inside espflash is outside the repository's sources, so the executable input
is taken at this parsed level. -/
structure Section where
  addr : Nat
  data : List Nat
deriving DecidableEq, Repr

/-- Little-endian 4-byte encoding of a 32-bit value. -/
def le4 (n : Nat) : List Nat :=
  [n % 256, n / 256 % 256, n / 65536 % 256, n / 16777216 % 256]

/-- XOR checksum over a byte list. -/
def xorSum (l : List Nat) : Nat :=
  l.foldl Nat.xor 0

/-- Image header: magic byte, section count, flash mode, flash-size field
(spec 4.3: "a header encoding flash mode/speed/size"). -/
def headerBytes (sectionCount : Nat) (size : FlashSize) : List Nat :=
  [0xE9, sectionCount, 0, flashSizeCode size]

/-- One section record: load address, length, data, checksum
(spec 4.3: "(load-address, length, data, checksum) record"). -/
def encodeSection (s : Section) : List Nat :=
  le4 s.addr ++ le4 s.data.length ++ s.data ++ [xorSum s.data]

/-- Modelled from the spec: the Firmware Image Builder
(espflash `FirmwareImageBuilder`, not in src/).  Produces a header encoding
flash mode/speed/size, each loadable section as a
(load-address, length, data, checksum) record, and a whole-image checksum
trailer; fails with `InvalidExecutable` if the input lacks loadable sections
or exceeds the addressable range implied by the flash-size parameter. -/
def buildFirmwareImage (img : List Section) (size : FlashSize) :
    Except EspError (List Nat) :=
  if img = [] then .error .invalidExecutable
  else if img.all (fun s => decide (s.addr + s.data.length ≤ flashSizeBytes size)) then
    .ok (headerBytes img.length size ++ img.flatMap encodeSection
          ++ [xorSum (img.flatMap Section.data)])
  else .error .invalidExecutable

/-- The flash-size field of a built firmware image (byte at index 3 of the
header). -/
def headerFlashSizeField (fw : List Nat) : Nat :=
  fw.getD 3 0

/-- The flash-size value `prepare` passes to the builder: the source
hard-codes `Some(FlashSize::Flash4Mb)` with a TODO to make it configurable
(src/main.rs line 191). -/
def flashSizeUsed : FlashSize :=
  .flash4Mb

/-- One partition entry: name, type, subtype, offset, size
(spec section 3, PartitionTable). -/
structure PartitionEntry where
  ptype : Nat
  psubtype : Nat
  offset : Nat
  size : Nat
  name : List Nat
deriving DecidableEq, Repr

/-- A parsed partition table: an ordered sequence of entries. -/
structure PartitionTable where
  entries : List PartitionEntry
deriving DecidableEq, Repr

/-- Size of the flash address space entries must stay within (16 MB). -/
def flashSpace : Nat :=
  0x1000000

/-- Byte size of one binary partition-entry record. -/
def entrySize : Nat :=
  32

/-- Whether two partition entries occupy disjoint flash ranges. -/
def entryDisjointB (a b : PartitionEntry) : Bool :=
  decide (a.offset + a.size ≤ b.offset) || decide (b.offset + b.size ≤ a.offset)

/-- Pairwise disjointness of a list of partition entries. -/
def entriesDisjoint : List PartitionEntry → Bool
  | [] => true
  | e :: es => es.all (fun f => entryDisjointB e f) && entriesDisjoint es

/-- Validity of a partition table: every entry within the flash address
space, and no two entries overlap. -/
def tableValid (t : PartitionTable) : Bool :=
  t.entries.all (fun e => decide (e.offset + e.size ≤ flashSpace))
    && entriesDisjoint t.entries

/-- Little-endian 32-bit read from a byte list at a given index. -/
def le32get (c : List Nat) (i : Nat) : Nat :=
  c.getD i 0 + 256 * c.getD (i + 1) 0 + 65536 * c.getD (i + 2) 0
    + 16777216 * c.getD (i + 3) 0

/-- Decode one fixed-size binary record into a partition entry: type,
subtype, 32-bit offset, 32-bit size, name bytes. -/
def decodeEntry (c : List Nat) : PartitionEntry :=
  { ptype := c.getD 0 0
    psubtype := c.getD 1 0
    offset := le32get c 2
    size := le32get c 6
    name := c.drop 10 }

/-- Encode one partition entry back into its fixed-size binary record. -/
def encodeEntry (e : PartitionEntry) : List Nat :=
  [e.ptype, e.psubtype] ++ le4 e.offset ++ le4 e.size
    ++ (e.name.take 22 ++ List.replicate (22 - e.name.length) 0)

/-- Serialize a partition table to its binary form. -/
def serializeTable (t : PartitionTable) : List Nat :=
  t.entries.flatMap encodeEntry

/-- Whether the bytes match the expected binary framing: byte values in
range and a whole number of fixed-size records. -/
def wellFramed (bytes : List Nat) : Bool :=
  bytes.all (fun b => decide (b < 256)) && bytes.length % entrySize == 0

/-- Decode a well-framed byte sequence into its sequence of entries. -/
def decodeTable (bytes : List Nat) : PartitionTable :=
  ⟨(List.range (bytes.length / entrySize)).map
    (fun i => decodeEntry ((bytes.drop (entrySize * i)).take entrySize))⟩

/-- Modelled from the spec: the Partition Table Loader's parse step
(espflash `PartitionTable::try_from_bytes`, not in src/).  Parses bytes into
a PartitionTable, failing with `MalformedPartitionTable` if the byte layout
does not match the expected binary structure (byte values and record
framing), entries overlap, or entries exceed the flash address space.
All-or-nothing: a pure function of the bytes. -/
def parsePartitionTable (bytes : List Nat) : Except EspError PartitionTable :=
  if wellFramed bytes then
    if tableValid (decodeTable bytes) then .ok (decodeTable bytes)
    else .error .malformedPartitionTable
  else .error .malformedPartitionTable

/-- The partition-table resolution step of `prepare` (src/main.rs lines
178-182): no input file yields `none`; otherwise the file bytes are parsed,
a parse failure aborting the whole run. -/
def loadPartitionTable (input : Option (List Nat)) :
    Except EspError (Option PartitionTable) :=
  match input with
  | none => .ok none
  | some b => (parsePartitionTable b).map some

/-- Modelled from the spec: the chip's default partition layout, synthesized
when no partition table is supplied (espflash default layout, not in src/).
A data/nvs entry and a factory app entry. -/
def defaultTable : PartitionTable :=
  ⟨[ { ptype := 1, psubtype := 2, offset := 0x9000, size := 0x6000, name := [] },
     { ptype := 0, psubtype := 0, offset := 0x10000, size := 0x100000, name := [] } ]⟩

/-- Chip-specific constants: default bootloader offset, partition-table
offset, application offset (spec section 3, ChipProfile). -/
structure ChipProfile where
  bootloaderOffset : Nat
  partitionTableOffset : Nat
  appOffset : Nat
deriving DecidableEq, Repr

/-- Modelled from the spec: the Chip Profile Resolver (espflash per-chip
constants, not in src/).  Offsets for the four ESP32 families are the ones
the repository's manifest declares; ESP8266 uses the conventional
zero-based bootloader layout. -/
def chipProfile : Chip → ChipProfile
  | .esp32 => { bootloaderOffset := 4096, partitionTableOffset := 32768, appOffset := 65536 }
  | .esp32c3 => { bootloaderOffset := 0, partitionTableOffset := 32768, appOffset := 65536 }
  | .esp32s2 => { bootloaderOffset := 4096, partitionTableOffset := 32768, appOffset := 65536 }
  | .esp32s3 => { bootloaderOffset := 0, partitionTableOffset := 32768, appOffset := 65536 }
  | .esp8266 => { bootloaderOffset := 0, partitionTableOffset := 32768, appOffset := 65536 }

/-- The canonical output unit: absolute flash offset plus payload
(spec section 3, FlashSegment). -/
structure FlashSegment where
  offset : Nat
  data : List Nat
deriving DecidableEq, Repr

/-- Insert a segment into a list sorted by ascending offset. -/
def insertByOffset (s : FlashSegment) : List FlashSegment → List FlashSegment
  | [] => [s]
  | t :: ts => if s.offset ≤ t.offset then s :: t :: ts else t :: insertByOffset s ts

/-- Sort segments by ascending offset. -/
def sortByOffset : List FlashSegment → List FlashSegment
  | [] => []
  | s :: ss => insertByOffset s (sortByOffset ss)

/-- Chained no-overlap check: each segment's offset plus its length is at
most the next segment's offset. -/
def checkNoOverlap : List FlashSegment → Bool
  | a :: b :: rest => decide (a.offset + a.data.length ≤ b.offset) && checkNoOverlap (b :: rest)
  | _ => true

/-- Strictly ascending offsets. -/
def ascendingOffsets : List FlashSegment → Bool
  | a :: b :: rest => decide (a.offset < b.offset) && ascendingOffsets (b :: rest)
  | _ => true

/-- Partition-table bytes used by the assembler: the serialized parsed
table if one was supplied, else the chip default layout's serialization. -/
def partitionBytes : Option PartitionTable → List Nat
  | some t => serializeTable t
  | none => serializeTable defaultTable

/-- The three flash segments in the fixed canonical order — bootloader,
partition table, application — at the chip profile's fixed offsets
(offsets are chip-family constants, never derived from payload sizes). -/
def canonicalSegments (chip : Chip) (b pb fw : List Nat) : List FlashSegment :=
  [ { offset := (chipProfile chip).bootloaderOffset, data := b },
    { offset := (chipProfile chip).partitionTableOffset, data := pb },
    { offset := (chipProfile chip).appOffset, data := fw } ]

/-- Modelled from the spec: the Image Assembler
(espflash `Chip::get_flash_image` plus `flash_segments`, not in src/).
Resolves bootloader bytes (explicit input, else the chip's bundled default —
an injectable resource `defaults`, failing with `MissingBootloader` if
neither is available), resolves partition-table bytes (serializing the
parsed table, else synthesizing the default layout), assigns the chip
profile's fixed offsets, and validates that the segments sorted by offset
have no overlap, failing with `SegmentOverlap` otherwise. -/
def getFlashImage (defaults : Chip → Option (List Nat)) (chip : Chip)
    (fw : List Nat) (boot : Option (List Nat)) (table : Option PartitionTable) :
    Except EspError (List FlashSegment) :=
  match boot.or (defaults chip) with
  | none => .error .missingBootloader
  | some b =>
    if checkNoOverlap (sortByOffset (canonicalSegments chip b (partitionBytes table) fw)) then
      .ok (canonicalSegments chip b (partitionBytes table) fw)
    else .error .segmentOverlap

/-- The outcome of `prepare`: a `PartsData`, an error result, or a panic
(Rust index-out-of-bounds abort, which bypasses the `Result` path). -/
inductive PrepareOutcome
  | ok (d : PartsData)
  | err (e : EspError)
  | panicked
deriving DecidableEq, Repr

/-- The tail of `prepare` (src/main.rs lines 204-214): collect the flash
segments and index `parts[0]`, `parts[1]`, `parts[2]`.  Rust `Vec` indexing
panics when the index is out of bounds, so fewer than three segments abort
by panic rather than by an error return. -/
def prepareFromSegments (name : String) (parts : List FlashSegment) :
    PrepareOutcome :=
  match parts with
  | b :: p :: a :: _ =>
    .ok { chip := name, bootloader := b.data, partitions := p.data, firmware := a.data }
  | _ => .panicked

/-- The CLI arguments (src/main.rs lines 12-28), with each file path replaced
by the contents `std::fs::read` would return for it.  There is no flash-size
option. -/
structure Args where
  chip : Chip
  bootloader : Option (List Nat)
  partitionTable : Option (List Nat)
  elf : List Section
deriving DecidableEq, Repr

/-- The assembly chain of `prepare` (src/main.rs lines 173-215): parse the
optional partition table, build the firmware image with the fixed 4 MB flash
size, assemble the flash image, and populate `PartsData` from the first
three segments. -/
def prepare (defaults : Chip → Option (List Nat)) (a : Args) : PrepareOutcome :=
  match loadPartitionTable a.partitionTable with
  | .error e => .err e
  | .ok p =>
    match buildFirmwareImage a.elf flashSizeUsed with
    | .error e => .err e
    | .ok fw =>
      match getFlashImage defaults a.chip fw a.bootloader p with
      | .error e => .err e
      | .ok parts => prepareFromSegments (chipName a.chip) parts

/-- The observable outcome of `main` (src/main.rs lines 217-238): exit with
a failure, abort by panic, or enter the serving phase with a `PartsData`. -/
inductive MainOutcome
  | exitFailure (e : EspError)
  | panicked
  | serving (d : PartsData)
deriving DecidableEq, Repr

/-- The control flow of `main`: `let data = prepare()?;` propagates any
error as a process-exit failure before the server is built; only a
successful `prepare` reaches the serving phase. -/
def mainModel (defaults : Chip → Option (List Nat)) (a : Args) : MainOutcome :=
  match prepare defaults a with
  | .err e => .exitFailure e
  | .panicked => .panicked
  | .ok d => .serving d

/-! ### Helper lemmas -/

/-- Every successful assembler run returns exactly the canonical three-segment
list, and that list passed the sorted no-overlap validation. -/
lemma getFlashImage_ok_shape {defaults : Chip → Option (List Nat)} {chip : Chip}
    {fw : List Nat} {boot : Option (List Nat)} {table : Option PartitionTable}
    {segs : List FlashSegment}
    (h : getFlashImage defaults chip fw boot table = .ok segs) :
    ∃ b, boot.or (defaults chip) = some b ∧
      segs = canonicalSegments chip b (partitionBytes table) fw ∧
      checkNoOverlap (sortByOffset segs) = true := by
  unfold getFlashImage at h
  split at h
  · simp at h
  · rename_i b hb
    split at h
    · injection h with h
      subst h
      exact ⟨b, hb, rfl, by assumption⟩
    · simp at h

/-- The canonical segment list is already sorted by offset, for every chip. -/
lemma sortByOffset_canonical (c : Chip) (b pb fw : List Nat) :
    sortByOffset (canonicalSegments c b pb fw) = canonicalSegments c b pb fw := by
  cases c <;> simp [canonicalSegments, chipProfile, sortByOffset, insertByOffset]

/-- The canonical segment list has strictly ascending offsets, for every
chip. -/
lemma ascending_canonical (c : Chip) (b pb fw : List Nat) :
    ascendingOffsets (canonicalSegments c b pb fw) = true := by
  cases c <;> simp [canonicalSegments, chipProfile, ascendingOffsets]

/-- Every table the parser returns satisfies the validity predicate. -/
lemma parse_ok_valid {b : List Nat} {t : PartitionTable}
    (h : parsePartitionTable b = .ok t) : tableValid t = true := by
  unfold parsePartitionTable at h
  split at h
  · split at h
    · injection h with h
      subst h
      assumption
    · simp at h
  · simp at h

/-- The flash-size field of every successfully built firmware image is the
header code of the flash size the builder was given. -/
lemma build_ok_header {img : List Section} {size : FlashSize} {fw : List Nat}
    (h : buildFirmwareImage img size = .ok fw) :
    headerFlashSizeField fw = flashSizeCode size := by
  unfold buildFirmwareImage at h
  split at h
  · simp at h
  · split at h
    · injection h with h
      subst h
      simp [headerFlashSizeField, headerBytes, List.cons_append,
        List.getD_cons_succ, List.getD_cons_zero]
    · simp at h

/-! ### Claims -/

/-- C1: after assembly produces the three flash segments, the assembler
validates that, sorted by offset, the segments do not overlap, and assembly
fails with `SegmentOverlap` whenever this check fails; for every input on
which assembly succeeds, the returned segments are non-overlapping and
ordered by ascending offset. -/
theorem assembly_segments_ordered_disjoint
    (defaults : Chip → Option (List Nat)) (chip : Chip) (fw : List Nat)
    (boot : Option (List Nat)) (table : Option PartitionTable)
    (segs : List FlashSegment)
    (h : getFlashImage defaults chip fw boot table = .ok segs) :
    ascendingOffsets segs = true ∧ checkNoOverlap segs = true := by
  obtain ⟨b, -, rfl, hchk⟩ := getFlashImage_ok_shape h
  rw [sortByOffset_canonical] at hchk
  exact ⟨ascending_canonical chip b (partitionBytes table) fw, hchk⟩

/-- Witness for C1: a concrete successful run on the ESP32 profile with an
explicit one-byte bootloader and the default partition layout. -/
theorem assembly_segments_ordered_disjoint_witness :
    getFlashImage (fun _ => none) Chip.esp32 [1] (some [233]) none =
      .ok (canonicalSegments Chip.esp32 [233] (partitionBytes none) [1]) ∧
    ascendingOffsets (canonicalSegments Chip.esp32 [233] (partitionBytes none) [1]) = true ∧
    checkNoOverlap (canonicalSegments Chip.esp32 [233] (partitionBytes none) [1]) = true := by
  have h : getFlashImage (fun _ => none) Chip.esp32 [1] (some [233]) none =
      .ok (canonicalSegments Chip.esp32 [233] (partitionBytes none) [1]) := by rfl
  have h2 := assembly_segments_ordered_disjoint (fun _ => none) Chip.esp32 [1]
    (some [233]) none _ h
  exact ⟨h, h2⟩

/-- C2 counterexample: ESP8266 is a supported chip family identifier (the
CLI's `Chip` enum includes it and `prepare` labels it "ESP8266"), yet the
hard-coded manifest contains no build for it at all — so the manifest does
not list three assets for every supported chip family. -/
theorem manifest_missing_esp8266_build :
    chipName Chip.esp8266 = "ESP8266" ∧
    (manifestBuilds.filter (fun b => b.chipFamily == chipName Chip.esp8266)).length = 0 ∧
    manifestBuilds.length = 4 := by
  decide

/-- C2 (amended): for every supported chip family other than ESP8266 — the
families the manifest actually lists — the manifest has exactly one build
for that family with exactly three assets named bootloader.bin,
partitions.bin, firmware.bin in that order, and each asset's declared byte
offset equals the offset of the corresponding FlashSegment produced by the
assembler for that run. -/
theorem manifest_matches_segments_for_listed_chips
    (c : Chip) (hc : c ≠ Chip.esp8266)
    (defaults : Chip → Option (List Nat)) (fw : List Nat)
    (boot : Option (List Nat)) (table : Option PartitionTable)
    (segs : List FlashSegment)
    (h : getFlashImage defaults c fw boot table = .ok segs) :
    ∃ build,
      manifestBuilds.filter (fun b => b.chipFamily == chipName c) = [build] ∧
      build.parts.map ManifestPart.path =
        ["bootloader.bin", "partitions.bin", "firmware.bin"] ∧
      build.parts.map ManifestPart.offset = segs.map FlashSegment.offset := by
  obtain ⟨b, -, rfl, -⟩ := getFlashImage_ok_shape h
  cases c
  · exact ⟨_, rfl, rfl, rfl⟩
  · exact ⟨_, rfl, rfl, rfl⟩
  · exact ⟨_, rfl, rfl, rfl⟩
  · exact ⟨_, rfl, rfl, rfl⟩
  · exact absurd rfl hc

/-- Witness for C2 (amended): the ESP32 family, on a concrete successful
assembler run. -/
theorem manifest_matches_segments_witness :
    ∃ build,
      manifestBuilds.filter (fun b => b.chipFamily == chipName Chip.esp32) = [build] ∧
      build.parts.map ManifestPart.path =
        ["bootloader.bin", "partitions.bin", "firmware.bin"] ∧
      build.parts.map ManifestPart.offset =
        (canonicalSegments Chip.esp32 [233] (partitionBytes none) [1]).map
          FlashSegment.offset :=
  manifest_matches_segments_for_listed_chips Chip.esp32 (by decide)
    (fun _ => none) [1] (some [233]) none _ (by rfl)

/-- C3: for every input on which assembly succeeds, the assembler's output
is exactly three flash segments in the fixed canonical order — bootloader,
partition table, application firmware — and the `PartsData` snapshot is
populated from them in that order. -/
theorem prepare_three_segments_canonical_order
    (defaults : Chip → Option (List Nat)) (a : Args) (d : PartsData)
    (h : prepare defaults a = .ok d) :
    ∃ p fw b pb,
      loadPartitionTable a.partitionTable = .ok p ∧
      buildFirmwareImage a.elf flashSizeUsed = .ok fw ∧
      getFlashImage defaults a.chip fw a.bootloader p =
        .ok (canonicalSegments a.chip b pb fw) ∧
      (canonicalSegments a.chip b pb fw).length = 3 ∧
      d = { chip := chipName a.chip, bootloader := b, partitions := pb,
            firmware := fw } := by
  unfold prepare at h
  split at h
  · simp at h
  · rename_i p hp
    split at h
    · simp at h
    · rename_i fw hfw
      split at h
      · simp at h
      · rename_i parts hparts
        obtain ⟨b, -, rfl, -⟩ := getFlashImage_ok_shape hparts
        simp only [canonicalSegments, prepareFromSegments] at h
        injection h with h
        subst h
        exact ⟨p, fw, b, partitionBytes p, hp, hfw, hparts, rfl, rfl⟩

/-- Witness for C3: a concrete run — ESP32, a one-section executable, an
explicit one-byte bootloader, no partition-table file. -/
theorem prepare_three_segments_canonical_order_witness :
    ∃ p fw b pb,
      loadPartitionTable (none : Option (List Nat)) = .ok p ∧
      buildFirmwareImage [{ addr := 0, data := [1, 2, 3] }] flashSizeUsed = .ok fw ∧
      getFlashImage (fun _ => none) Chip.esp32 fw (some [233]) p =
        .ok (canonicalSegments Chip.esp32 b pb fw) ∧
      (canonicalSegments Chip.esp32 b pb fw).length = 3 ∧
      ({ chip := "ESP32", bootloader := [233],
         partitions := serializeTable defaultTable,
         firmware := headerBytes 1 FlashSize.flash4Mb
           ++ encodeSection { addr := 0, data := [1, 2, 3] }
           ++ [xorSum [1, 2, 3]] } : PartsData) =
        { chip := chipName Chip.esp32, bootloader := b, partitions := pb,
          firmware := fw } :=
  prepare_three_segments_canonical_order (fun _ => none)
    { chip := Chip.esp32, bootloader := some [233], partitionTable := none,
      elf := [{ addr := 0, data := [1, 2, 3] }] } _ (by decide)

/-- C4: for every supported chip identifier, the resolved chip profile's
three default offsets are consistent and non-overlapping: bootloader offset
< partition-table offset < application offset. -/
theorem chip_profile_offsets_ordered :
    ∀ c : Chip,
      (chipProfile c).bootloaderOffset < (chipProfile c).partitionTableOffset ∧
      (chipProfile c).partitionTableOffset < (chipProfile c).appOffset := by
  intro c
  cases c <;> decide

/-- C5: if any step of the assembly chain returns an error, the process
exits with a failure before the serving phase is entered; the serving phase
is reached exactly when `prepare` returns a valid `PartsData`, so the server
never starts serving with an invalid or partial image set. -/
theorem assembly_failure_prevents_serving
    (defaults : Chip → Option (List Nat)) (a : Args) :
    (∀ e, prepare defaults a = .err e → mainModel defaults a = .exitFailure e) ∧
    (prepare defaults a = .panicked → mainModel defaults a = .panicked) ∧
    (∀ d, mainModel defaults a = .serving d → prepare defaults a = .ok d) := by
  unfold mainModel
  cases hp : prepare defaults a <;> simp [hp]

/-- Witness for C5: a malformed partition-table file (one stray byte) makes
the run exit with a failure, and a concrete good run reaches serving only
with the `PartsData` that `prepare` produced. -/
theorem assembly_failure_prevents_serving_witness :
    mainModel (fun _ => none)
      { chip := Chip.esp32, bootloader := some [233],
        partitionTable := some [1], elf := [{ addr := 0, data := [1] }] } =
      .exitFailure .malformedPartitionTable ∧
    prepare (fun _ => none)
      { chip := Chip.esp32, bootloader := some [233], partitionTable := none,
        elf := [{ addr := 0, data := [1] }] } =
      .ok { chip := "ESP32", bootloader := [233],
            partitions := serializeTable defaultTable,
            firmware := headerBytes 1 FlashSize.flash4Mb
              ++ encodeSection { addr := 0, data := [1] } ++ [xorSum [1]] } :=
  ⟨(assembly_failure_prevents_serving (fun _ => none)
      { chip := Chip.esp32, bootloader := some [233],
        partitionTable := some [1], elf := [{ addr := 0, data := [1] }] }).1
      .malformedPartitionTable (by decide),
   (assembly_failure_prevents_serving (fun _ => none)
      { chip := Chip.esp32, bootloader := some [233], partitionTable := none,
        elf := [{ addr := 0, data := [1] }] }).2.2 _ (by decide)⟩

/-- C6: each of the three binary asset endpoints returns exactly the
corresponding byte buffer of `PartsData` verbatim and unconditionally; the
handlers are pure functions of `PartsData` with no error-producing path. -/
theorem binary_endpoints_verbatim (d : PartsData) :
    bootloader d = d.bootloader ∧
    partitions d = d.partitions ∧
    firmware d = d.firmware ∧
    respond d .bootloaderRoute = .bytes d.bootloader ∧
    respond d .partitionsRoute = .bytes d.partitions ∧
    respond d .firmwareRoute = .bytes d.firmware :=
  ⟨rfl, rfl, rfl, rfl, rfl, rfl⟩

/-- C7: with no partition-table input the loader yields `none` (and the
assembler then uses the chip default layout); with input bytes, parsing is
all-or-nothing — a success hands the assembler exactly the parsed, valid
table, and a failure is the parser's failure, with no partially valid table
ever produced. -/
theorem partition_table_loader_all_or_nothing :
    loadPartitionTable none = .ok none ∧
    partitionBytes none = serializeTable defaultTable ∧
    (∀ b t, loadPartitionTable (some b) = .ok (some t) →
      parsePartitionTable b = .ok t ∧ tableValid t = true) ∧
    (∀ b e, loadPartitionTable (some b) = .error e →
      parsePartitionTable b = .error e) := by
  refine ⟨rfl, rfl, ?_, ?_⟩
  · intro b t h
    simp only [loadPartitionTable] at h
    cases hp : parsePartitionTable b <;> rw [hp] at h
    · simp [Except.map] at h
    · simp [Except.map] at h
      subst h
      exact ⟨rfl, parse_ok_valid hp⟩
  · intro b e h
    simp only [loadPartitionTable] at h
    cases hp : parsePartitionTable b <;> rw [hp] at h
    · simp [Except.map] at h
      subst h
      rfl
    · simp [Except.map] at h

/-- Witness for C7: the empty byte file parses to the empty table (valid),
and the one-byte file fails framing with `MalformedPartitionTable`. -/
theorem partition_table_loader_witness :
    (parsePartitionTable [] = .ok ⟨[]⟩ ∧ tableValid ⟨[]⟩ = true) ∧
    parsePartitionTable [1] = .error .malformedPartitionTable :=
  ⟨partition_table_loader_all_or_nothing.2.2.1 [] ⟨[]⟩ (by rfl),
   partition_table_loader_all_or_nothing.2.2.2 [1] .malformedPartitionTable (by rfl)⟩

/-- C8: the firmware image is always built with the flash-size parameter
fixed to the 4 MB default — the CLI exposes no flash-size option and the
value is a hard-coded constant — so the header's flash-size field is the
same in every successfully built image. -/
theorem flash_size_fixed_default :
    flashSizeUsed = FlashSize.flash4Mb ∧
    (∀ (a : Args) (fw : List Nat),
      buildFirmwareImage a.elf flashSizeUsed = .ok fw →
      headerFlashSizeField fw = flashSizeCode FlashSize.flash4Mb) := by
  refine ⟨rfl, ?_⟩
  intro a fw h
  exact build_ok_header h

/-- Witness for C8: a concrete one-section executable builds, and its
header's flash-size field is the 4 MB code. -/
theorem flash_size_fixed_default_witness :
    headerFlashSizeField
      (headerBytes 1 FlashSize.flash4Mb
        ++ encodeSection { addr := 0, data := [1, 2, 3] } ++ [xorSum [1, 2, 3]]) =
      flashSizeCode FlashSize.flash4Mb :=
  flash_size_fixed_default.2
    { chip := Chip.esp32, bootloader := none, partitionTable := none,
      elf := [{ addr := 0, data := [1, 2, 3] }] }
    _ (by rfl)

/-- C9: if the flash image yields fewer than three segments, the tail of
`prepare` does not return an error value — indexing `parts[0..2]` aborts by
an out-of-bounds panic, bypassing the error-result path and its descriptive
message. -/
theorem short_segment_list_panics (name : String) (parts : List FlashSegment)
    (h : parts.length < 3) :
    prepareFromSegments name parts = .panicked ∧
    ∀ e, prepareFromSegments name parts ≠ .err e := by
  cases parts with
  | nil => exact ⟨rfl, by simp [prepareFromSegments]⟩
  | cons a t =>
    cases t with
    | nil => exact ⟨rfl, by simp [prepareFromSegments]⟩
    | cons b t2 =>
      cases t2 with
      | nil => exact ⟨rfl, by simp [prepareFromSegments]⟩
      | cons c t3 => simp at h; omega

/-- Witness for C9: the empty segment list panics and is not an error
result. -/
theorem short_segment_list_panics_witness :
    prepareFromSegments "ESP32" [] = .panicked ∧
    prepareFromSegments "ESP32" [] ≠ .err .segmentOverlap :=
  ⟨(short_segment_list_panics "ESP32" [] (by decide)).1,
   (short_segment_list_panics "ESP32" [] (by decide)).2 .segmentOverlap⟩

/-- C10: the chip label stored in `PartsData` is never read by any endpoint
— two `PartsData` values differing only in the chip field get identical
responses on every route — and the landing page and manifest are constants
independent of `PartsData` entirely. -/
theorem responses_independent_of_chip_label
    (c₁ c₂ : String) (b p f : List Nat) (r : Route) (d : PartsData) :
    respond { chip := c₁, bootloader := b, partitions := p, firmware := f } r =
      respond { chip := c₂, bootloader := b, partitions := p, firmware := f } r ∧
    respond d .indexRoute = .html indexPage ∧
    respond d .manifestRoute = .json manifestDoc := by
  cases r <;> exact ⟨rfl, rfl, rfl⟩

end EspWebFlash
